import Mathlib

/-!
Verification development for django-overextends.

Shallow embedding of the two source files:
  - overextends/templatetags/overextends_tags.py
      (OverExtendsNode: populate_context, remove_template_path,
       find_template, get_parent, get_template; the overextends tag function)
  - overextends/models.py (make_origin)

Modelling conventions:
  - Python strings are Lean String; Python slicing is modelled on the
    underlying character list (code points), matching Python len/slices.
  - A Python dict with string keys is an ordered association list
    (insertion order preserved, keys unique by construction of set).
  - Raised Python exceptions become an Except PyErr result; the do-notation
    bind models uncaught propagation (nothing in this code has try/except).
  - External host collaborators (django.template.loader.find_template,
    get_template_from_string, os.path.abspath, settings.TEMPLATE_DIRS and
    app_template_dirs, FilterExpression.resolve) are parameters: the code
    under verification only composes them, per the external-interface
    contract of the spec.
-/

set_option autoImplicit false

namespace Overextends

/-- Python exception kinds raised (or propagated) by this code. -/
inductive PyErr where
  | valueError (msg : String)
  | keyError (msg : String)
  | nameError (msg : String)
  | templateSyntaxError (msg : String)
  | templateDoesNotExist (msg : String)
deriving Repr, DecidableEq

/-- Python s.take on code points: first n characters of the string. -/
def strTakeChars (s : String) (n : Nat) : String :=
  String.mk (s.data.take n)

/-- Python slice s[:-k] for k at least 1: drop the last k characters,
giving the empty string when k is at least len(s). -/
def pySliceDropLast (s : String) (k : Nat) : String :=
  strTakeChars s (s.data.length - k)

/-- Python list.remove(x): remove the first occurrence of x, raising
ValueError when x is not in the list. -/
def listRemove (xs : List String) (x : String) : Except PyErr (List String) :=
  match xs with
  | [] => .error (.valueError "list.remove(x): x not in list")
  | y :: ys =>
    if y = x then .ok ys
    else (listRemove ys x).map (fun zs => y :: zs)

/-- The exclusion registry stored under the OVEREXTENDS_DIRS context key:
a dict mapping template names to lists of remaining search directories,
modelled as an insertion-ordered association list. -/
abbrev Registry := List (String × List String)

/-- Dict lookup: value at the first matching key, none when absent. -/
def Registry.lookup (r : Registry) (k : String) : Option (List String) :=
  match r with
  | [] => none
  | (k0, v) :: rest => if k0 = k then some v else Registry.lookup rest k

/-- Dict assignment d[k] = v: replace the value at an existing key,
otherwise append the new binding. -/
def Registry.set (r : Registry) (k : String) (v : List String) : Registry :=
  match r with
  | [] => [(k, v)]
  | (k0, v0) :: rest =>
    if k0 = k then (k0, v) :: rest else (k0, v0) :: Registry.set rest k v

/-- The slice of the render context this code touches: the value stored
under the OVEREXTENDS_DIRS key, absent until populate_context creates it. -/
structure Ctx where
  overextendsDirs : Option Registry
deriving Repr, DecidableEq

/-- Lookup of a template name in the context registry; none when either
the OVEREXTENDS_DIRS key or the name entry is absent. -/
def ctxLookup (ctx : Ctx) (n : String) : Option (List String) :=
  match ctx.overextendsDirs with
  | none => none
  | some r => r.lookup n

/-- Host configuration read by populate_context: settings.TEMPLATE_DIRS
and django.template.loaders.app_directories.app_template_dirs. -/
structure Settings where
  TEMPLATE_DIRS : List String
  app_template_dirs : List String
deriving Repr, DecidableEq

/-- Origin record built by LoaderOrigin(display_name, loader, name, dirs).
Django sets origin.name to display_name (the resolved file path) and
origin.loadname to the name argument (the relative template name). -/
structure LoaderOrigin where
  display_name : String
  loader : String
  name : String
  dirs : Option (List String)
deriving Repr, DecidableEq

/-- A template value flowing through find_template: raw source that still
has to be compiled, or an object that already has a render attribute. -/
inductive Tpl where
  | raw (src : String)
  | compiled (id : String)
deriving Repr, DecidableEq

/-- Python hasattr(template, "render") on our template values. -/
def Tpl.hasRender : Tpl → Bool
  | .raw _ => false
  | .compiled _ => true

/-- A compiled FilterExpression as held in parent_name: its filter list,
its raw token text, and its var part. The var is kept only for fidelity:
the branch of get_parent that would inspect it cannot evaluate, because
the name Variable is not imported in overextends_tags.py. -/
structure FilterExpression where
  filters : List String
  token : String
  var : String
deriving Repr, DecidableEq

/-- The value parent_name.resolve(context) produces: a string name, None,
or an already compiled template object (anything with a render attribute). -/
inductive PVal where
  | pstr (s : String)
  | pnone
  | ptemplate (t : Tpl)
deriving Repr, DecidableEq

/-- Python truthiness of a resolved parent value: empty string and None
are falsy, template objects are truthy. -/
def PVal.truthy : PVal → Bool
  | .pstr s => s ≠ ""
  | .pnone => false
  | .ptemplate _ => true

/-- Python repr of a resolved parent value, used in the %r error message. -/
def PVal.pyRepr : PVal → String
  | .pstr s => "\x27" ++ s ++ "\x27"
  | .pnone => "None"
  | .ptemplate _ => "<Template>"

/-- The string a truthy non-template resolved value contributes as the
parent template name. -/
def PVal.asStr : PVal → String
  | .pstr s => s
  | .pnone => "None"
  | .ptemplate _ => "<Template>"

/-- The kinds of node that can appear in a parsed body node list, as far
as get_nodes_by_type(ExtendsNode) is concerned: a standard ExtendsNode, an
OverExtendsNode (a subclass of ExtendsNode, so it also matches), or any
other node. -/
inductive NodeKind where
  | extendsNode
  | overExtendsNode
  | otherNode
deriving Repr, DecidableEq

/-- Python isinstance(node, ExtendsNode): true for the standard node and
for the custom node, which subclasses it. -/
def isExtendsNodeType : NodeKind → Bool
  | .extendsNode => true
  | .overExtendsNode => true
  | .otherNode => false

/-- nodelist.get_nodes_by_type(ExtendsNode): the sublist of nodes that are
instances of ExtendsNode. -/
def get_nodes_by_type_extends (nl : List NodeKind) : List NodeKind :=
  nl.filter isExtendsNodeType

/-- The OverExtendsNode state captured at parse time: the body node list,
the compiled parent expression, and the Template Name and Template Path
taken from the origin of the token. -/
structure OverExtendsNode where
  nodelist : List NodeKind
  parent_name : FilterExpression
  template_name : String
  template_path : String
deriving Repr, DecidableEq

/-- OverExtendsNode.populate_context: create the OVEREXTENDS_DIRS dict if
absent, then, if this template name has no entry yet, set its entry to
list(settings.TEMPLATE_DIRS) + list(app_template_dirs), each entry mapped
through os.path.abspath. -/
def populate_context (abspath : String → String) (st : Settings)
    (node : OverExtendsNode) (ctx : Ctx) : Ctx :=
  let r : Registry :=
    match ctx.overextendsDirs with
    | none => []
    | some r0 => r0
  match r.lookup node.template_name with
  | some _ => ⟨some r⟩
  | none =>
    let all_dirs := st.TEMPLATE_DIRS ++ st.app_template_dirs
    ⟨some (r.set node.template_name (all_dirs.map abspath))⟩

/-- The directory remove_template_path computes for removal:
os.path.abspath(self.template_path[:-len(self.template_name) - 1]). -/
def removePath (abspath : String → String) (node : OverExtendsNode) : String :=
  abspath (pySliceDropLast node.template_path (node.template_name.data.length + 1))

/-- OverExtendsNode.remove_template_path:
context[OVEREXTENDS_DIRS][template_name].remove(remove_path). Both
subscript accesses raise KeyError when absent, and list.remove raises
ValueError when the computed directory is not in the list; nothing here
catches either. -/
def remove_template_path (abspath : String → String)
    (node : OverExtendsNode) (ctx : Ctx) : Except PyErr Ctx :=
  match ctx.overextendsDirs with
  | none => .error (.keyError "OVEREXTENDS_DIRS")
  | some r =>
    match r.lookup node.template_name with
    | none => .error (.keyError node.template_name)
    | some ds =>
      match listRemove ds (removePath abspath node) with
      | .error e => .error e
      | .ok ds2 => .ok ⟨some (r.set node.template_name ds2)⟩

/-- The host primitive django.template.loader.find_template: a name plus
an optional explicit directory list, yielding a template (or raw source)
and an optional origin, or raising TemplateDoesNotExist. -/
abbrev Host := String → Option (List String) → Except PyErr (Tpl × Option LoaderOrigin)

/-- OverExtendsNode.find_template: dirs =
context[OVEREXTENDS_DIRS].get(template_name, None), then delegate to the
host find_template with those dirs; the result, error included, is
returned unchanged. -/
def find_template (host : Host) (ctx : Ctx) (template_name : String) :
    Except PyErr (Tpl × Option LoaderOrigin) :=
  match ctx.overextendsDirs with
  | none => .error (.keyError "OVEREXTENDS_DIRS")
  | some r => host template_name (r.lookup template_name)

/-- The host primitive get_template_from_string(source, origin, name),
returning a compiled template. -/
abbrev Compiler := String → Option LoaderOrigin → String → String

/-- The compile step at the end of get_template: compile raw source with
get_template_from_string, pass an already compiled template through. -/
def compileIfRaw (compile : Compiler) (tname : String)
    (t : Tpl) (o : Option LoaderOrigin) : Tpl :=
  match t with
  | .raw src => .compiled (compile src o tname)
  | .compiled s => .compiled s

/-- OverExtendsNode.get_template: populate_context, then
remove_template_path, then find_template, compiling the result when it
has no render attribute; every raised error propagates uncaught. -/
def get_template (abspath : String → String) (st : Settings) (host : Host)
    (compile : Compiler) (node : OverExtendsNode) (template_name : String)
    (ctx : Ctx) : Except PyErr (Tpl × Ctx) :=
  let ctx1 := populate_context abspath st node ctx
  match remove_template_path abspath node ctx1 with
  | .error e => .error e
  | .ok ctx2 =>
    match find_template host ctx2 template_name with
    | .error e => .error e
    | .ok (t, origin) => .ok (compileIfRaw compile template_name t origin, ctx2)

/-- The error get_parent raises when the resolved parent value is falsy.
When parent_name.filters is non-empty, the or-expression short-circuits
and a TemplateSyntaxError carrying the repr of the value and the raw
token is raised. When filters is empty, Python must evaluate
isinstance(self.parent_name.var, Variable); the name Variable is not
imported anywhere in overextends_tags.py, so the lookup itself raises
NameError before any TemplateSyntaxError can be built. -/
def getParentFalsyError (node : OverExtendsNode) (parent : PVal) : PyErr :=
  if node.parent_name.filters ≠ [] then
    .templateSyntaxError
      ("Invalid template name in \x27extends\x27 tag: " ++ parent.pyRepr ++
        ". Got this from the \x27" ++ node.parent_name.token ++ "\x27 variable.")
  else
    .nameError "name \x27Variable\x27 is not defined"

/-- OverExtendsNode.get_parent: resolve parent_name against the context;
raise on a falsy value; return the value directly when it has a render
attribute; otherwise look the name up through our get_template. -/
def get_parent (abspath : String → String) (st : Settings) (host : Host)
    (compile : Compiler) (node : OverExtendsNode) (resolve : Ctx → PVal)
    (ctx : Ctx) : Except PyErr (Tpl × Ctx) :=
  let parent := resolve ctx
  if parent.truthy then
    match parent with
    | .ptemplate t => .ok (t, ctx)
    | other => get_template abspath st host compile node other.asStr ctx
  else .error (getParentFalsyError node parent)

/-- The origin attached to a token source: either a LoaderOrigin (set by
loaders through make_origin) or some other Origin value, as checked by
isinstance(origin, LoaderOrigin) in the tag function. -/
inductive OriginVal where
  | loaderOrigin (o : LoaderOrigin)
  | otherOrigin (name : String)
deriving Repr, DecidableEq

/-- The token handed to the tag function. split_contents() of a tag token
always starts with the tag name, modelled as the tagname field, followed
by the arguments; token.source is present only when the lexer attached
it, and holds an (origin, source) pair. -/
structure Token where
  tagname : String
  args : List String
  source : Option (OriginVal × String)
deriving Repr, DecidableEq

/-- The parser state the tag function uses: compile_filter on the single
argument, and parse() producing the rest of the body node list. -/
structure Parser where
  compile_filter : String → FilterExpression
  parsedNodelist : List NodeKind

/-- The overextends tag function: capture template_name and template_path
from a LoaderOrigin token source, failing with TemplateSyntaxError when
they are unavailable; then fail when the argument count is not exactly
one; then compile the parent expression, parse the body, and fail when
the body already holds an ExtendsNode (standard or custom); otherwise
build the OverExtendsNode. -/
def overextends (p : Parser) (t : Token) : Except PyErr OverExtendsNode :=
  let bits := t.tagname :: t.args
  let name_path : Option String × Option String :=
    match t.source with
    | some (.loaderOrigin o, _src) => (some o.name, some o.display_name)
    | _ => (none, none)
  match name_path with
  | (some template_name, some template_path) =>
    if bits.length ≠ 2 then
      .error (.templateSyntaxError ("\x27" ++ t.tagname ++ "\x27 takes one argument"))
    else
      let parent_name := p.compile_filter (t.args.headD "")
      let nodelist := p.parsedNodelist
      if get_nodes_by_type_extends nodelist ≠ [] then
        .error (.templateSyntaxError ("\x27" ++ t.tagname ++
          "\x27 cannot appear more than once in the same template"))
      else .ok ⟨nodelist, parent_name, template_name, template_path⟩
  | _ =>
    .error (.templateSyntaxError ("\x27" ++ t.tagname ++
      "\x27 can only be used with templates loaded by template loaders using and setting \x27LoaderOrigin\x27"))

/-- models.py make_origin(display_name, loader, name, dirs): a populated
LoaderOrigin when display_name is truthy, None otherwise. display_name is
an optional string since loaders pass None for non-file sources. -/
def make_origin (display_name : Option String) (loader : String)
    (name : String) (dirs : Option (List String)) : Option LoaderOrigin :=
  match display_name with
  | some s => if s ≠ "" then some ⟨s, loader, name, dirs⟩ else none
  | none => none

/-- Labels for the render-phase operations of the directive, used to make
their execution order explicit. -/
inductive Step where
  | resolveStep
  | populateStep
  | removeStep
  | findStep
deriving Repr, DecidableEq

/-- get_template instrumented with the sequence of operations it performs,
in order; its result component is exactly get_template. -/
def get_template_tr (abspath : String → String) (st : Settings) (host : Host)
    (compile : Compiler) (node : OverExtendsNode) (template_name : String)
    (ctx : Ctx) : List Step × Except PyErr (Tpl × Ctx) :=
  let ctx1 := populate_context abspath st node ctx
  match remove_template_path abspath node ctx1 with
  | .error e => ([.populateStep, .removeStep], .error e)
  | .ok ctx2 =>
    match find_template host ctx2 template_name with
    | .error e => ([.populateStep, .removeStep, .findStep], .error e)
    | .ok (t, origin) =>
      ([.populateStep, .removeStep, .findStep],
        .ok (compileIfRaw compile template_name t origin, ctx2))

/-- get_parent instrumented with the sequence of operations it performs,
in order; its result component is exactly get_parent. -/
def get_parent_tr (abspath : String → String) (st : Settings) (host : Host)
    (compile : Compiler) (node : OverExtendsNode) (resolve : Ctx → PVal)
    (ctx : Ctx) : List Step × Except PyErr (Tpl × Ctx) :=
  let parent := resolve ctx
  if parent.truthy then
    match parent with
    | .ptemplate t => ([.resolveStep], .ok (t, ctx))
    | other =>
      let tr := get_template_tr abspath st host compile node other.asStr ctx
      (.resolveStep :: tr.1, tr.2)
  else ([.resolveStep], .error (getParentFalsyError node parent))

/-- Python truthiness of an optional string, as applied to display_name
in make_origin: None and the empty string are falsy. -/
def optStrTruthy : Option String → Bool
  | none => false
  | some s => s ≠ ""

/-- The (template_name, template_path) pair the tag function extracts
from a token: present exactly when the token has a source whose origin is
a LoaderOrigin. -/
def tokenOriginPair (t : Token) : Option (String × String) :=
  match t.source with
  | some (.loaderOrigin o, _src) => some (o.name, o.display_name)
  | _ => none

/-- Recognizer for a raised TemplateSyntaxError result of the tag
function. -/
def isTemplateSyntaxError : Except PyErr OverExtendsNode → Bool
  | .error (.templateSyntaxError _) => true
  | _ => false

/-! Concrete fixtures used to instantiate proved theorems. -/

def exSettings : Settings := ⟨["/a", "/b"], ["/c"]⟩

def exHost : Host := fun _ _ => .ok (.raw "src", none)

def exHostNotFound : Host := fun n _ => .error (.templateDoesNotExist n)

def exCompile : Compiler := fun s _ _ => "compiled " ++ s

def exFilterExpr : FilterExpression := ⟨[], "parent_var", "parent_var"⟩

def exNode : OverExtendsNode := ⟨[], exFilterExpr, "foo.html", "/a/foo.html"⟩

def exNodeWithFilter : OverExtendsNode :=
  ⟨[], ⟨["default"], "parent_var|default", "parent_var"⟩, "foo.html", "/a/foo.html"⟩

def exDirs : List String := ["/a", "/b", "/c"]

def exReg : Registry := [("foo.html", exDirs)]

def exCtx : Ctx := ⟨some exReg⟩

def exParser : Parser := ⟨fun s => ⟨[], s, s⟩, []⟩

def exToken : Token :=
  ⟨"overextends", ["parent"],
    some (.loaderOrigin ⟨"/a/foo.html", "L", "foo.html", none⟩, "src")⟩

/-! Helper lemmas about the dict and list primitives. -/

theorem Registry.lookup_set_self (r : Registry) (k : String) (v : List String) :
    (r.set k v).lookup k = some v := by
  induction r with
  | nil => simp [Registry.set, Registry.lookup]
  | cons hd tl ih =>
    obtain ⟨k0, v0⟩ := hd
    by_cases h : k0 = k <;> simp [Registry.set, Registry.lookup, h, ih]

theorem Registry.lookup_set_ne (r : Registry) (k m : String) (v : List String)
    (h : k ≠ m) : (r.set k v).lookup m = r.lookup m := by
  induction r with
  | nil => simp [Registry.set, Registry.lookup, h]
  | cons hd tl ih =>
    obtain ⟨k0, v0⟩ := hd
    by_cases h0 : k0 = k
    · subst h0; simp [Registry.set, Registry.lookup, h]
    · simp [Registry.set, Registry.lookup, h0, ih]

theorem listRemove_of_mem (xs : List String) (x : String) (h : x ∈ xs) :
    listRemove xs x = .ok (xs.erase x) := by
  induction xs with
  | nil => cases h
  | cons y ys ih =>
    by_cases hy : y = x
    · subst hy; simp [listRemove, List.erase_cons]
    · have hx : x ∈ ys := by
        cases h with
        | head => exact absurd rfl hy
        | tail _ h2 => exact h2
      simp [listRemove, hy, ih hx, List.erase_cons, Except.map]

theorem listRemove_of_not_mem (xs : List String) (x : String) (h : x ∉ xs) :
    listRemove xs x = .error (.valueError "list.remove(x): x not in list") := by
  induction xs with
  | nil => rfl
  | cons y ys ih =>
    have hy : y ≠ x := fun e => h (e ▸ List.mem_cons_self y ys)
    have hys : x ∉ ys := fun hx => h (List.mem_cons_of_mem _ hx)
    simp [listRemove, hy, ih hys, Except.map]

theorem listRemove_ok_inv (xs ys : List String) (x : String)
    (h : listRemove xs x = .ok ys) : x ∈ xs ∧ ys = xs.erase x := by
  by_cases hx : x ∈ xs
  · rw [listRemove_of_mem xs x hx] at h
    exact ⟨hx, (Except.ok.injEq _ _ ▸ h).symm⟩
  · rw [listRemove_of_not_mem xs x hx] at h
    cases h

/-! Helper lemmas about populate_context. -/

theorem populate_context_of_mem (abspath : String → String) (st : Settings)
    (node : OverExtendsNode) (ctx : Ctx) (ds : List String)
    (h : ctxLookup ctx node.template_name = some ds) :
    populate_context abspath st node ctx = ctx := by
  obtain ⟨o⟩ := ctx
  cases o with
  | none => simp [ctxLookup] at h
  | some r =>
    simp only [ctxLookup] at h
    simp [populate_context, h]

theorem populate_context_of_not_mem (abspath : String → String) (st : Settings)
    (node : OverExtendsNode) (ctx : Ctx)
    (h : ctxLookup ctx node.template_name = none) :
    ∃ r, (populate_context abspath st node ctx) = ⟨some r⟩ ∧
      r.lookup node.template_name
        = some ((st.TEMPLATE_DIRS ++ st.app_template_dirs).map abspath) ∧
      ∀ m, m ≠ node.template_name → r.lookup m = ctxLookup ctx m := by
  obtain ⟨o⟩ := ctx
  cases o with
  | none =>
    refine ⟨Registry.set [] node.template_name
      ((st.TEMPLATE_DIRS ++ st.app_template_dirs).map abspath), ?_, ?_, ?_⟩
    · simp [populate_context, Registry.lookup]
    · exact Registry.lookup_set_self _ _ _
    · intro m hm
      rw [Registry.lookup_set_ne _ _ _ _ (Ne.symm hm)]
      simp [ctxLookup, Registry.lookup]
  | some r =>
    simp only [ctxLookup] at h
    refine ⟨r.set node.template_name
      ((st.TEMPLATE_DIRS ++ st.app_template_dirs).map abspath), ?_, ?_, ?_⟩
    · simp [populate_context, h]
    · exact Registry.lookup_set_self _ _ _
    · intro m hm
      rw [Registry.lookup_set_ne _ _ _ _ (Ne.symm hm)]
      simp [ctxLookup]

/-! Claim theorems. -/

/-- C2: for any template name with configured search directories, the
first render-time use populates the registry entry with exactly
settings.TEMPLATE_DIRS followed by app_template_dirs, each mapped through
os.path.abspath, in that order; any later use within the same render
context finds the entry present and leaves the context unchanged, never
resetting the (possibly shrunk) entry. -/
theorem claim_C2_populate_once (abspath : String → String) (st : Settings)
    (node : OverExtendsNode) (ctx : Ctx) :
    (ctxLookup ctx node.template_name = none →
      ctxLookup (populate_context abspath st node ctx) node.template_name
        = some ((st.TEMPLATE_DIRS ++ st.app_template_dirs).map abspath))
    ∧ (∀ ds, ctxLookup ctx node.template_name = some ds →
        populate_context abspath st node ctx = ctx) := by
  constructor
  · intro h
    obtain ⟨r, hr, hself, _⟩ := populate_context_of_not_mem abspath st node ctx h
    rw [hr]
    simpa [ctxLookup] using hself
  · intro ds h
    exact populate_context_of_mem abspath st node ctx ds h

/-- Witness for C2: a first use on an empty context creates the entry in
configured order; a second use on a context that already holds a shrunk
entry leaves it untouched. -/
theorem claim_C2_witness :
    ctxLookup (populate_context id exSettings exNode ⟨none⟩) "foo.html"
      = some ["/a", "/b", "/c"]
    ∧ populate_context id exSettings exNode ⟨some [("foo.html", ["/b"])]⟩
      = ⟨some [("foo.html", ["/b"])]⟩ :=
  ⟨(claim_C2_populate_once id exSettings exNode ⟨none⟩).1 rfl,
   (claim_C2_populate_once id exSettings exNode ⟨some [("foo.html", ["/b"])]⟩).2
      ["/b"] rfl⟩

/-- C8: make_origin is pure; with a truthy display_name it returns a
LoaderOrigin built from exactly its four arguments, and with a falsy
display_name (None or the empty string) it returns None. -/
theorem claim_C8_make_origin (dn : Option String) (l n : String)
    (d : Option (List String)) :
    (∀ s, dn = some s → s ≠ "" → make_origin dn l n d = some ⟨s, l, n, d⟩)
    ∧ (optStrTruthy dn = false → make_origin dn l n d = none) := by
  constructor
  · intro s hs hne
    subst hs
    simp [make_origin, hne]
  · intro h
    cases dn with
    | none => rfl
    | some s =>
      simp [optStrTruthy] at h
      simp [make_origin, h]

/-- Witness for C8: a real display name yields the populated origin, and
both falsy display names yield None. -/
theorem claim_C8_witness :
    make_origin (some "/a/foo.html") "L" "foo.html" none
      = some ⟨"/a/foo.html", "L", "foo.html", none⟩
    ∧ make_origin (some "") "L" "foo.html" none = none
    ∧ make_origin none "L" "foo.html" none = none :=
  ⟨(claim_C8_make_origin (some "/a/foo.html") "L" "foo.html" none).1
      "/a/foo.html" rfl (by decide),
   (claim_C8_make_origin (some "") "L" "foo.html" none).2 (by decide),
   (claim_C8_make_origin none "L" "foo.html" none).2 rfl⟩

/-- C10: when the searched name has no entry in the exclusion registry,
the find_template wrapper hands dirs = None to the host find_template, so
the search runs over the host default search path. -/
theorem claim_C10_no_entry_default_dirs (host : Host) (ctx : Ctx)
    (r : Registry) (tname : String) (hr : ctx.overextendsDirs = some r)
    (h : r.lookup tname = none) :
    find_template host ctx tname = host tname none := by
  simp [find_template, hr, h]

/-- Witness for C10: a parent name different from the one tracked in the
registry is searched with dirs = None. -/
theorem claim_C10_witness :
    find_template exHost exCtx "bar.html" = exHost "bar.html" none :=
  claim_C10_no_entry_default_dirs exHost exCtx exReg "bar.html" rfl (by decide)

/-- C1: when the render of the directive resolves its template name, the
removal step deletes exactly one directory from the name entry: the one
computed as abspath of the captured template path with its trailing
len(template_name) + 1 characters sliced off. The entry shrinks by
exactly one element (first occurrence removed), other entries stay
untouched, and the removal happens before the parent search: get_template
hands the host search exactly the post-removal list. -/
theorem claim_C1_remove_exactly_one (abspath : String → String) (st : Settings)
    (host : Host) (compile : Compiler) (node : OverExtendsNode) (ctx : Ctx)
    (r : Registry) (ds : List String)
    (hr : ctx.overextendsDirs = some r)
    (hds : r.lookup node.template_name = some ds)
    (hmem : removePath abspath node ∈ ds) :
    removePath abspath node
      = abspath (pySliceDropLast node.template_path (node.template_name.data.length + 1))
    ∧ remove_template_path abspath node ctx
        = .ok ⟨some (r.set node.template_name (ds.erase (removePath abspath node)))⟩
    ∧ (ds.erase (removePath abspath node)).length + 1 = ds.length
    ∧ (∀ m, m ≠ node.template_name →
        (r.set node.template_name (ds.erase (removePath abspath node))).lookup m
          = r.lookup m)
    ∧ get_template abspath st host compile node node.template_name ctx
        = Except.map
            (fun res => (compileIfRaw compile node.template_name res.1 res.2,
              (⟨some (r.set node.template_name (ds.erase (removePath abspath node)))⟩ : Ctx)))
            (host node.template_name (some (ds.erase (removePath abspath node)))) := by
  have hrem : remove_template_path abspath node ctx
      = .ok ⟨some (r.set node.template_name (ds.erase (removePath abspath node)))⟩ := by
    simp [remove_template_path, hr, hds, listRemove_of_mem ds _ hmem]
  refine ⟨rfl, hrem, ?_, ?_, ?_⟩
  · have h1 := List.length_erase_of_mem hmem
    have h2 : 0 < ds.length := List.length_pos.mpr (List.ne_nil_of_mem hmem)
    omega
  · intro m hm
    exact Registry.lookup_set_ne _ _ _ _ (Ne.symm hm)
  · have hpop : populate_context abspath st node ctx = ctx :=
      populate_context_of_mem abspath st node ctx ds (by simp [ctxLookup, hr, hds])
    have hfind : find_template host
        ⟨some (r.set node.template_name (ds.erase (removePath abspath node)))⟩
        node.template_name
        = host node.template_name (some (ds.erase (removePath abspath node))) := by
      simp [find_template, Registry.lookup_set_self]
    cases h : host node.template_name (some (ds.erase (removePath abspath node))) with
    | error e => simp [get_template, hpop, hrem, hfind, h, Except.map]
    | ok res =>
      obtain ⟨t, o⟩ := res
      simp [get_template, hpop, hrem, hfind, h, Except.map]

/-- Witness for C1 at a concrete render: the entry loses exactly its
first directory and the host search then receives the shrunk list. -/
theorem claim_C1_witness :
    remove_template_path id exNode exCtx
      = .ok ⟨some (exReg.set "foo.html" (exDirs.erase (removePath id exNode)))⟩
    ∧ (exDirs.erase (removePath id exNode)).length + 1 = exDirs.length
    ∧ get_template id exSettings exHost exCompile exNode "foo.html" exCtx
      = Except.map
          (fun res => (compileIfRaw exCompile "foo.html" res.1 res.2,
            (⟨some (exReg.set "foo.html" (exDirs.erase (removePath id exNode)))⟩ : Ctx)))
          (exHost "foo.html" (some (exDirs.erase (removePath id exNode)))) := by
  have h := claim_C1_remove_exactly_one id exSettings exHost exCompile exNode exCtx
    exReg exDirs rfl (by decide) (by decide)
  exact ⟨h.2.1, h.2.2.1, h.2.2.2.2⟩

/-- C5: when the computed directory is not in the name entry, the
list.remove step raises ValueError; the error propagates out of
remove_template_path and out of get_template, nothing in this code
catching it. -/
theorem claim_C5_remove_not_present_fatal (abspath : String → String)
    (st : Settings) (host : Host) (compile : Compiler) (node : OverExtendsNode)
    (ctx : Ctx) (r : Registry) (ds : List String) (tname : String)
    (hr : ctx.overextendsDirs = some r)
    (hds : r.lookup node.template_name = some ds)
    (hnot : removePath abspath node ∉ ds) :
    remove_template_path abspath node ctx
      = .error (.valueError "list.remove(x): x not in list")
    ∧ get_template abspath st host compile node tname ctx
      = .error (.valueError "list.remove(x): x not in list") := by
  have hrem : remove_template_path abspath node ctx
      = .error (.valueError "list.remove(x): x not in list") := by
    simp [remove_template_path, hr, hds, listRemove_of_not_mem ds _ hnot]
  have hpop : populate_context abspath st node ctx = ctx :=
    populate_context_of_mem abspath st node ctx ds (by simp [ctxLookup, hr, hds])
  exact ⟨hrem, by simp [get_template, hpop, hrem]⟩

/-- Witness for C5: an entry that no longer holds the current directory
makes both the removal step and the whole lookup fail with ValueError. -/
theorem claim_C5_witness :
    remove_template_path id exNode ⟨some [("foo.html", ["/b"])]⟩
      = .error (.valueError "list.remove(x): x not in list")
    ∧ get_template id exSettings exHost exCompile exNode "foo.html"
        ⟨some [("foo.html", ["/b"])]⟩
      = .error (.valueError "list.remove(x): x not in list") :=
  claim_C5_remove_not_present_fatal id exSettings exHost exCompile exNode
    ⟨some [("foo.html", ["/b"])]⟩ [("foo.html", ["/b"])] ["/b"] "foo.html"
    rfl (by decide) (by decide)

/-- C3: when the remaining entry for the name is exhausted by the removal
step, the host search receives the empty directory list and its
TemplateDoesNotExist error is returned unchanged by the find_template
wrapper and by get_template: surfaced, never caught, never rerouted to an
already excluded directory. -/
theorem claim_C3_exhausted_not_found (abspath : String → String) (st : Settings)
    (compile : Compiler) (node : OverExtendsNode) (ctx : Ctx) (r : Registry)
    (ds : List String) (host : Host)
    (hr : ctx.overextendsDirs = some r)
    (hds : r.lookup node.template_name = some ds)
    (hmem : removePath abspath node ∈ ds)
    (hempty : ds.erase (removePath abspath node) = [])
    (hhost : host node.template_name (some [])
      = .error (.templateDoesNotExist node.template_name)) :
    find_template host ⟨some (r.set node.template_name [])⟩ node.template_name
      = .error (.templateDoesNotExist node.template_name)
    ∧ get_template abspath st host compile node node.template_name ctx
      = .error (.templateDoesNotExist node.template_name) := by
  have hfind : find_template host ⟨some (r.set node.template_name [])⟩
      node.template_name
      = .error (.templateDoesNotExist node.template_name) := by
    simp [find_template, Registry.lookup_set_self, hhost]
  refine ⟨hfind, ?_⟩
  have hrem : remove_template_path abspath node ctx
      = .ok ⟨some (r.set node.template_name (ds.erase (removePath abspath node)))⟩ := by
    simp [remove_template_path, hr, hds, listRemove_of_mem ds _ hmem]
  rw [hempty] at hrem
  have hpop : populate_context abspath st node ctx = ctx :=
    populate_context_of_mem abspath st node ctx ds (by simp [ctxLookup, hr, hds])
  simp [get_template, hpop, hrem, hfind]

/-- Witness for C3: one remaining directory, used by the current file;
after its removal the search fails with TemplateDoesNotExist. -/
theorem claim_C3_witness :
    get_template id exSettings exHostNotFound exCompile exNode "foo.html"
      ⟨some [("foo.html", ["/a"])]⟩
      = .error (.templateDoesNotExist "foo.html") :=
  (claim_C3_exhausted_not_found id exSettings exCompile exNode
    ⟨some [("foo.html", ["/a"])]⟩ [("foo.html", ["/a"])] ["/a"] exHostNotFound
    rfl (by decide) (by decide) (by decide) rfl).2

/-! Further helper lemmas, shared across the remaining proofs. -/

theorem populate_context_preserves (abspath : String → String) (st : Settings)
    (node : OverExtendsNode) (c : Ctx) :
    ∀ n ds, ctxLookup c n = some ds →
      ctxLookup (populate_context abspath st node c) n = some ds := by
  intro n ds h
  by_cases hn : ctxLookup c node.template_name = none
  · obtain ⟨r, hr, _, hother⟩ := populate_context_of_not_mem abspath st node c hn
    have hne : n ≠ node.template_name := by
      intro e
      rw [e, hn] at h
      cases h
    rw [hr]
    simpa [ctxLookup, hother n hne] using h
  · rcases Option.ne_none_iff_exists'.mp hn with ⟨ds0, hds0⟩
    rw [populate_context_of_mem abspath st node c ds0 hds0]
    exact h

theorem remove_template_path_shrinks (abspath : String → String)
    (node : OverExtendsNode) (c c2 : Ctx)
    (hok : remove_template_path abspath node c = .ok c2) :
    ∀ n ds, ctxLookup c n = some ds →
      ∃ ds2, ctxLookup c2 n = some ds2 ∧ ds2.Sublist ds := by
  intro n ds h
  obtain ⟨o⟩ := c
  cases o with
  | none => simp [remove_template_path] at hok
  | some r =>
    cases hlk : r.lookup node.template_name with
    | none => simp [remove_template_path, hlk] at hok
    | some ds0 =>
      by_cases hmem : removePath abspath node ∈ ds0
      · simp only [remove_template_path, hlk,
          listRemove_of_mem ds0 _ hmem] at hok
        rw [Except.ok.injEq] at hok
        subst hok
        simp only [ctxLookup] at h
        by_cases hn : n = node.template_name
        · subst hn
          rw [hlk] at h
          injection h with h3
          subst h3
          refine ⟨ds0.erase (removePath abspath node), ?_, ?_⟩
          · simp [ctxLookup, Registry.lookup_set_self]
          · exact List.erase_sublist _ _
        · refine ⟨ds, ?_, List.Sublist.refl ds⟩
          simp [ctxLookup, Registry.lookup_set_ne r node.template_name n _
            (Ne.symm hn), h]
      · simp [remove_template_path, hlk,
          listRemove_of_not_mem ds0 _ hmem] at hok

theorem get_template_tr_snd (abspath : String → String) (st : Settings)
    (host : Host) (compile : Compiler) (node : OverExtendsNode)
    (tname : String) (ctx : Ctx) :
    (get_template_tr abspath st host compile node tname ctx).2
      = get_template abspath st host compile node tname ctx := by
  simp only [get_template_tr, get_template]
  cases remove_template_path abspath node (populate_context abspath st node ctx) with
  | error e => rfl
  | ok c2 =>
    dsimp only
    cases find_template host c2 tname with
    | error e => rfl
    | ok pr =>
      obtain ⟨t, o⟩ := pr
      rfl

theorem get_template_tr_fst (abspath : String → String) (st : Settings)
    (host : Host) (compile : Compiler) (node : OverExtendsNode)
    (tname : String) (ctx : Ctx) :
    (get_template_tr abspath st host compile node tname ctx).1
      = [.populateStep, .removeStep]
    ∨ (get_template_tr abspath st host compile node tname ctx).1
      = [.populateStep, .removeStep, .findStep] := by
  simp only [get_template_tr]
  cases remove_template_path abspath node (populate_context abspath st node ctx) with
  | error e => exact Or.inl rfl
  | ok c2 =>
    dsimp only
    cases find_template host c2 tname with
    | error e => exact Or.inr rfl
    | ok pr =>
      obtain ⟨t, o⟩ := pr
      exact Or.inr rfl

/-- C4: the tag function raises TemplateSyntaxError exactly when the
token origin pair is unavailable, the argument count differs from one, or
the parsed body already holds an ExtendsNode (standard or custom); in
every other case it returns the OverExtendsNode built from the parsed
body, the compiled single argument, and the captured origin name and
path. -/
theorem claim_C4_tag_errors (p : Parser) (t : Token) :
    isTemplateSyntaxError (overextends p t)
      = (decide (tokenOriginPair t = none) || decide (t.args.length ≠ 1)
          || decide (get_nodes_by_type_extends p.parsedNodelist ≠ []))
    ∧ (∀ tn tp, tokenOriginPair t = some (tn, tp) → t.args.length = 1 →
        get_nodes_by_type_extends p.parsedNodelist = [] →
        overextends p t
          = .ok ⟨p.parsedNodelist, p.compile_filter (t.args.headD ""), tn, tp⟩) := by
  obtain ⟨tag, args, src⟩ := t
  constructor
  · rcases src with _ | ⟨o | nm, s⟩
    · simp [overextends, tokenOriginPair, isTemplateSyntaxError]
    · by_cases h1 : args.length = 1
      · by_cases h2 : get_nodes_by_type_extends p.parsedNodelist = []
        · simp [overextends, tokenOriginPair, isTemplateSyntaxError, h1, h2]
        · simp [overextends, tokenOriginPair, isTemplateSyntaxError, h1, h2]
      · simp [overextends, tokenOriginPair, isTemplateSyntaxError, h1]
    · simp [overextends, tokenOriginPair, isTemplateSyntaxError]
  · intro tn tp htp h1 h2
    rcases src with _ | ⟨o | nm, s⟩
    · simp [tokenOriginPair] at htp
    · simp only [tokenOriginPair] at htp
      injection htp with h3
      have h4 : o.name = tn := congrArg Prod.fst h3
      have h5 : o.display_name = tp := congrArg Prod.snd h3
      subst h4
      subst h5
      simp [overextends, h1, h2]
    · simp [tokenOriginPair] at htp

/-- Witness for C4: a well formed token parses to the expected node. -/
theorem claim_C4_witness :
    overextends exParser exToken
      = .ok ⟨[], ⟨[], "parent", "parent"⟩, "foo.html", "/a/foo.html"⟩ :=
  (claim_C4_tag_errors exParser exToken).2 "foo.html" "/a/foo.html" rfl rfl rfl

/-- C9: within one render context, a name entry only shrinks. An existing
entry survives populate_context verbatim; a successful
remove_template_path leaves every entry a sublist of what it was; and the
whole get_template chain (populate, remove, find) returns a context in
which every previously present entry is still present as a sublist of its
old value — nothing is added back, nothing repopulated. -/
theorem claim_C9_monotone_shrink (abspath : String → String) (st : Settings)
    (host : Host) (compile : Compiler) (node : OverExtendsNode)
    (tname : String) (ctx : Ctx) :
    (∀ n ds, ctxLookup ctx n = some ds →
      ctxLookup (populate_context abspath st node ctx) n = some ds)
    ∧ (∀ ctx2, remove_template_path abspath node ctx = .ok ctx2 →
        ∀ n ds, ctxLookup ctx n = some ds →
          ∃ ds2, ctxLookup ctx2 n = some ds2 ∧ ds2.Sublist ds)
    ∧ (∀ res ctx2,
        get_template abspath st host compile node tname ctx = .ok (res, ctx2) →
        ∀ n ds, ctxLookup ctx n = some ds →
          ∃ ds2, ctxLookup ctx2 n = some ds2 ∧ ds2.Sublist ds) := by
  refine ⟨populate_context_preserves abspath st node ctx, ?_, ?_⟩
  · intro ctx2 hok
    exact remove_template_path_shrinks abspath node ctx ctx2 hok
  · intro res ctx2 hok n ds h
    simp only [get_template] at hok
    cases hrm : remove_template_path abspath node (populate_context abspath st node ctx) with
    | error e => rw [hrm] at hok; cases hok
    | ok ctxm =>
      rw [hrm] at hok
      dsimp only at hok
      cases hf : find_template host ctxm tname with
      | error e => rw [hf] at hok; cases hok
      | ok pr =>
        obtain ⟨tt, oo⟩ := pr
        rw [hf] at hok
        dsimp only at hok
        rw [Except.ok.injEq, Prod.mk.injEq] at hok
        obtain ⟨-, hctx⟩ := hok
        subst hctx
        have h1 := populate_context_preserves abspath st node ctx n ds h
        exact remove_template_path_shrinks abspath node
          (populate_context abspath st node ctx) ctxm hrm n ds h1

/-- Witness for C9: removing the used directory leaves the other entry of
the registry untouched and the touched entry a sublist of its old value. -/
theorem claim_C9_witness :
    ∃ ds2, ctxLookup ⟨some (exReg.set "foo.html" (exDirs.erase "/a"))⟩ "foo.html"
        = some ds2 ∧ ds2.Sublist exDirs :=
  (claim_C9_monotone_shrink id exSettings exHost exCompile exNode "foo.html"
    exCtx).2.1 ⟨some (exReg.set "foo.html" (exDirs.erase "/a"))⟩
    (by rfl) "foo.html" exDirs (by decide)

/-- C6 counterexample: at a concrete render pass the directive evaluates
resolution of the parent expression first, before populate_context ever
runs: the actual order is resolve, populate, remove, find, not populate,
remove, resolve, find as claimed. -/
theorem claim_C6_counterexample :
    (get_parent_tr id exSettings exHost exCompile exNode
        (fun _ => .pstr "foo.html") ⟨none⟩).1
      = [.resolveStep, .populateStep, .removeStep, .findStep]
    ∧ (get_parent_tr id exSettings exHost exCompile exNode
        (fun _ => .pstr "foo.html") ⟨none⟩).1
      ≠ [.populateStep, .removeStep, .resolveStep, .findStep] := by
  constructor
  · decide
  · decide

/-- C6 amended: each render pass reaching the directive resolves the
parent expression first; when the resolved value is an already compiled
template object it is used directly and no bookkeeping step runs at all;
otherwise populate_context, then remove_template_path, then (when removal
succeeds) find_template execute in exactly that order. The trace-carrying
functions agree with the plain ones on results. -/
theorem claim_C6_render_order (abspath : String → String) (st : Settings)
    (host : Host) (compile : Compiler) (node : OverExtendsNode)
    (resolve : Ctx → PVal) (ctx : Ctx) :
    (get_parent_tr abspath st host compile node resolve ctx).2
      = get_parent abspath st host compile node resolve ctx
    ∧ (∀ t, resolve ctx = .ptemplate t →
        get_parent_tr abspath st host compile node resolve ctx
          = ([.resolveStep], .ok (t, ctx)))
    ∧ ((resolve ctx).truthy = true → (∀ t, resolve ctx ≠ .ptemplate t) →
        (get_parent_tr abspath st host compile node resolve ctx).1
          = [.resolveStep, .populateStep, .removeStep]
        ∨ (get_parent_tr abspath st host compile node resolve ctx).1
          = [.resolveStep, .populateStep, .removeStep, .findStep]) := by
  cases hp : resolve ctx with
  | pstr s =>
    by_cases hs : s = ""
    · subst hs
      refine ⟨?_, ?_, ?_⟩
      · simp [get_parent_tr, get_parent, hp, PVal.truthy]
      · intro t ht; cases ht
      · intro htr _; simp [PVal.truthy] at htr
    · refine ⟨?_, ?_, ?_⟩
      · simp [get_parent_tr, get_parent, hp, PVal.truthy, hs, get_template_tr_snd]
      · intro t ht; cases ht
      · intro _ _
        rcases get_template_tr_fst abspath st host compile node
            (PVal.asStr (.pstr s)) ctx with h | h
        · left; simp [get_parent_tr, hp, PVal.truthy, hs, h]
        · right; simp [get_parent_tr, hp, PVal.truthy, hs, h]
  | pnone =>
    refine ⟨?_, ?_, ?_⟩
    · simp [get_parent_tr, get_parent, hp, PVal.truthy]
    · intro t ht; cases ht
    · intro htr _; simp [PVal.truthy] at htr
  | ptemplate t =>
    refine ⟨?_, ?_, ?_⟩
    · simp [get_parent_tr, get_parent, hp, PVal.truthy]
    · intro t2 ht
      injection ht with h2
      subst h2
      simp [get_parent_tr, hp, PVal.truthy]
    · intro _ hne
      exact absurd rfl (hne t)

/-- Witness for C6: a parent resolving to an already compiled template is
used directly, with resolution the only step performed. -/
theorem claim_C6_witness :
    get_parent_tr id exSettings exHost exCompile exNode
        (fun _ => .ptemplate (.compiled "T")) ⟨none⟩
      = ([.resolveStep], .ok (.compiled "T", ⟨none⟩)) :=
  (claim_C6_render_order id exSettings exHost exCompile exNode
    (fun _ => .ptemplate (.compiled "T")) ⟨none⟩).2.1 (.compiled "T") rfl

/-- C7: the code slip at the falsy-parent branch. When the resolved
parent value is falsy and the parent expression carries no filters,
get_parent raises NameError — the name Variable is referenced by
isinstance(self.parent_name.var, Variable) but never imported in
overextends_tags.py — instead of the intended TemplateSyntaxError. Only
when filters are present (so the or-expression short-circuits) does the
documented TemplateSyntaxError carrying the offending value and the
variable token get raised. -/
theorem claim_C7_name_error_bug :
    get_parent id exSettings exHost exCompile exNode (fun _ => .pstr "") ⟨none⟩
      = .error (.nameError "name \x27Variable\x27 is not defined")
    ∧ get_parent id exSettings exHost exCompile exNodeWithFilter
        (fun _ => .pstr "") ⟨none⟩
      = .error (.templateSyntaxError
          "Invalid template name in \x27extends\x27 tag: \x27\x27. Got this from the \x27parent_var|default\x27 variable.") := by
  exact ⟨rfl, rfl⟩

end Overextends
